import Mathlib

/-!
# MoeAppQr: the structured AI response pipeline (`src/services/ai/aiService.js`)

A shallow embedding of `generateAIResponse` together with the parts of the
JavaScript language it relies on: string trimming, `JSON.parse`, property
access, `ToBoolean`, the `||` operator and `try`/`catch`.

JavaScript strings are sequences of UTF-16 code units; they are modelled as
lists of natural numbers (each code unit below `65536`).
-/

namespace MoeAppQr

/-! ## JavaScript strings -/

/-- A JavaScript string: the list of its UTF-16 code units. -/
abbrev JSString := List Nat

/-- UTF-16 encoding of one Unicode scalar value. -/
def utf16Char (c : Char) : List Nat :=
  if c.toNat < 65536 then [c.toNat]
  else [55296 + (c.toNat - 65536) / 1024, 56320 + (c.toNat - 65536) % 1024]

/-- UTF-16 encoding of a text, used to write JavaScript string literals. -/
def utf16 (s : String) : JSString :=
  s.data.flatMap utf16Char

/-- Code units removed by `String.prototype.trim`: the ECMAScript `WhiteSpace`
and `LineTerminator` productions. -/
def isTrimSpace (c : Nat) : Bool :=
  c == 9 || c == 10 || c == 11 || c == 12 || c == 13 || c == 32 || c == 160
    || c == 5760 || (8192 ≤ c && c ≤ 8202) || c == 8232 || c == 8233
    || c == 8239 || c == 8287 || c == 12288 || c == 65279

/-- The method `String.prototype.trim`. -/
def trim (s : JSString) : JSString :=
  ((s.dropWhile isTrimSpace).reverse.dropWhile isTrimSpace).reverse

/-! ## JavaScript values -/

/-- A number as `JSON.parse` reads it: the exact decimal
`(-1)^negative * mantissa * 10^exponent` of the literal. The Number value is
the binary64 rounding of that decimal. -/
structure JSNumber where
  negative : Bool
  mantissa : Nat
  exponent : Int
  deriving DecidableEq

/-- Whether the Number value is `+0` or `-0`: the decimal is zero, or it is at
most `2^-1075`, half of the least positive binary64 value, and rounds to zero
(ties to even). -/
def JSNumber.isZero (n : JSNumber) : Bool :=
  n.mantissa == 0 ||
    (n.exponent < 0 && decide (n.mantissa * 2 ^ 1075 ≤ 10 ^ n.exponent.natAbs))

/-- The values of the language that this program can meet: `undefined`, and
what `JSON.parse` builds. An object keeps its members in source order; a later
member with the same key overrides an earlier one. -/
inductive JSValue where
  | undefined
  | null
  | bool (b : Bool)
  | number (n : JSNumber)
  | string (s : JSString)
  | array (elements : List JSValue)
  | object (members : List (JSString × JSValue))

/-- Errors that the program can throw or receive. -/
inductive JSError where
  | syntaxError
  | typeError
  | external (code : Nat)
  deriving DecidableEq

/-- The abstract operation `ToBoolean`. -/
def toBoolean : JSValue → Bool
  | .undefined => false
  | .null => false
  | .bool b => b
  | .number n => !n.isZero
  | .string s => !s.isEmpty
  | .array _ => true
  | .object _ => true

/-- The operator `a || b`. -/
def jsOr (a b : JSValue) : JSValue :=
  if toBoolean a then a else b

/-- The function `Boolean(v)`. -/
def jsBoolean (v : JSValue) : JSValue :=
  .bool (toBoolean v)

/-- Own-member lookup in an object built by `JSON.parse`: the value of the last
member with the key, or `undefined` when there is none. -/
def lookupMember (key : JSString) (members : List (JSString × JSValue)) : JSValue :=
  match members.reverse.find? (fun m => m.1 == key) with
  | some m => m.2
  | none => .undefined

/-- Property read `v.key` for a key that no built-in prototype defines and
that is neither `length` nor an index (the program reads `response`,
`command` and `terminate` only). Reading a property of `undefined` or `null`
throws a `TypeError`; primitives and arrays have no such property. -/
def getProp (v : JSValue) (key : JSString) : Except JSError JSValue :=
  match v with
  | .undefined => .error .typeError
  | .null => .error .typeError
  | .object members => .ok (lookupMember key members)
  | _ => .ok .undefined

/-! ## `JSON.parse` -/

/-- Outcome of a parsing function: a value and the remaining input, a syntax
error, or exhausted fuel. -/
inductive Parsed (α : Type) where
  | ok (value : α) (rest : List Nat)
  | syntaxError
  | outOfFuel

/-- JSON whitespace: tab, line feed, carriage return, space. -/
def isJSONSpace (c : Nat) : Bool :=
  c == 9 || c == 10 || c == 13 || c == 32

/-- Skip JSON whitespace. -/
def skipWs (input : List Nat) : List Nat :=
  input.dropWhile isJSONSpace

def isDigit (c : Nat) : Bool :=
  48 ≤ c && c ≤ 57

/-- Value of a hexadecimal digit. -/
def hexDigit (c : Nat) : Option Nat :=
  if 48 ≤ c && c ≤ 57 then some (c - 48)
  else if 65 ≤ c && c ≤ 70 then some (c - 55)
  else if 97 ≤ c && c ≤ 102 then some (c - 87)
  else none

/-- The code unit denoted by a single-character escape. -/
def simpleEscape (c : Nat) : Option Nat :=
  if c == 34 then some 34        -- \"
  else if c == 92 then some 92   -- \\
  else if c == 47 then some 47   -- \/
  else if c == 98 then some 8    -- \b
  else if c == 102 then some 12  -- \f
  else if c == 110 then some 10  -- \n
  else if c == 114 then some 13  -- \r
  else if c == 116 then some 9   -- \t
  else none

/-- The characters of a string literal after its opening quote, up to and
including the closing quote. `acc` holds the decoded code units, reversed. -/
def parseStringChars : List Nat → List Nat → Parsed JSString
  | [], _ => .syntaxError
  | c :: rest, acc =>
    if c == 34 then .ok acc.reverse rest
    else if c == 92 then
      match rest with
      | [] => .syntaxError
      | e :: rest1 =>
        if e == 117 then
          match rest1 with
          | h1 :: h2 :: h3 :: h4 :: rest2 =>
            match hexDigit h1, hexDigit h2, hexDigit h3, hexDigit h4 with
            | some a, some b, some c1, some d =>
              parseStringChars rest2 ((a * 4096 + b * 256 + c1 * 16 + d) :: acc)
            | _, _, _, _ => .syntaxError
          | _ => .syntaxError
        else
          match simpleEscape e with
          | some u => parseStringChars rest1 (u :: acc)
          | none => .syntaxError
    else if c < 32 then .syntaxError
    else parseStringChars rest (c :: acc)

/-- Decimal value of a run of digits, continuing from `acc`. -/
def digitsValue (acc : Nat) : List Nat → Nat
  | [] => acc
  | d :: ds => digitsValue (acc * 10 + (d - 48)) ds

/-- The optional exponent part of a number literal. -/
def parseExponent (input : List Nat) : Parsed Int :=
  match input with
  | c :: rest =>
    if c == 101 || c == 69 then
      match rest with
      | s :: rest1 =>
        if s == 43 || s == 45 then
          match rest1.span isDigit with
          | ([], _) => .syntaxError
          | (ds, rest2) =>
            .ok (if s == 45 then -(digitsValue 0 ds : Int) else digitsValue 0 ds) rest2
        else
          match rest.span isDigit with
          | ([], _) => .syntaxError
          | (ds, rest2) => .ok (digitsValue 0 ds) rest2
      | [] => .syntaxError
    else .ok 0 input
  | [] => .ok 0 input

/-- The optional fraction part of a number literal: its digits. -/
def parseFraction (input : List Nat) : Parsed (List Nat) :=
  match input with
  | c :: rest =>
    if c == 46 then
      match rest.span isDigit with
      | ([], _) => .syntaxError
      | (ds, rest1) => .ok ds rest1
    else .ok [] input
  | [] => .ok [] input

/-- The unsigned part of a number literal: integer digits without a leading
zero, then fraction and exponent. -/
def parseUnsigned (negative : Bool) (input : List Nat) : Parsed JSNumber :=
  match input.span isDigit with
  | ([], _) => .syntaxError
  | (d :: ds, rest) =>
    if d == 48 && !ds.isEmpty then .syntaxError
    else
      match parseFraction rest with
      | .ok frac rest1 =>
        match parseExponent rest1 with
        | .ok e rest2 =>
          .ok ⟨negative, digitsValue 0 (d :: ds ++ frac), e - frac.length⟩ rest2
        | .syntaxError => .syntaxError
        | .outOfFuel => .outOfFuel
      | .syntaxError => .syntaxError
      | .outOfFuel => .outOfFuel

/-- A number literal. -/
def parseNumber (input : List Nat) : Parsed JSNumber :=
  match input with
  | c :: rest => if c == 45 then parseUnsigned true rest else parseUnsigned false input
  | [] => .syntaxError

/-- Match a keyword (`null`, `true`, `false`) at the head of the input. -/
def parseKeyword (word : List Nat) (value : JSValue) (input : List Nat) : Parsed JSValue :=
  if word.isPrefixOf input then .ok value (input.drop word.length) else .syntaxError

mutual
/-- A JSON value, after optional leading whitespace. -/
def parseValue : Nat → List Nat → Parsed JSValue
  | 0, _ => .outOfFuel
  | fuel + 1, input =>
    match skipWs input with
    | [] => .syntaxError
    | c :: rest =>
      if c == 123 then
        match skipWs rest with
        | d :: rest1 =>
          if d == 125 then .ok (.object []) rest1
          else
            match parseMembers fuel (d :: rest1) with
            | .ok members rest2 => .ok (.object members) rest2
            | .syntaxError => .syntaxError
            | .outOfFuel => .outOfFuel
        | [] => .syntaxError
      else if c == 91 then
        match skipWs rest with
        | d :: rest1 =>
          if d == 93 then .ok (.array []) rest1
          else
            match parseElements fuel (d :: rest1) with
            | .ok elements rest2 => .ok (.array elements) rest2
            | .syntaxError => .syntaxError
            | .outOfFuel => .outOfFuel
        | [] => .syntaxError
      else if c == 34 then
        match parseStringChars rest [] with
        | .ok s rest1 => .ok (.string s) rest1
        | .syntaxError => .syntaxError
        | .outOfFuel => .outOfFuel
      else if c == 45 || isDigit c then
        match parseNumber (c :: rest) with
        | .ok n rest1 => .ok (.number n) rest1
        | .syntaxError => .syntaxError
        | .outOfFuel => .outOfFuel
      else if c == 110 then parseKeyword [110, 117, 108, 108] .null (c :: rest)
      else if c == 116 then parseKeyword [116, 114, 117, 101] (.bool true) (c :: rest)
      else if c == 102 then parseKeyword [102, 97, 108, 115, 101] (.bool false) (c :: rest)
      else .syntaxError
/-- The elements of a non-empty array, up to and including the closing
bracket. -/
def parseElements : Nat → List Nat → Parsed (List JSValue)
  | 0, _ => .outOfFuel
  | fuel + 1, input =>
    match parseValue fuel input with
    | .ok v rest =>
      match skipWs rest with
      | c :: rest1 =>
        if c == 93 then .ok [v] rest1
        else if c == 44 then
          match parseElements fuel rest1 with
          | .ok vs rest2 => .ok (v :: vs) rest2
          | .syntaxError => .syntaxError
          | .outOfFuel => .outOfFuel
        else .syntaxError
      | [] => .syntaxError
    | .syntaxError => .syntaxError
    | .outOfFuel => .outOfFuel
/-- The members of a non-empty object, up to and including the closing
brace. -/
def parseMembers : Nat → List Nat → Parsed (List (JSString × JSValue))
  | 0, _ => .outOfFuel
  | fuel + 1, input =>
    match skipWs input with
    | q :: rest =>
      if q == 34 then
        match parseStringChars rest [] with
        | .ok key rest1 =>
          match skipWs rest1 with
          | colon :: rest2 =>
            if colon == 58 then
              match parseValue fuel rest2 with
              | .ok v rest3 =>
                match skipWs rest3 with
                | c :: rest4 =>
                  if c == 125 then .ok [(key, v)] rest4
                  else if c == 44 then
                    match parseMembers fuel rest4 with
                    | .ok ms rest5 => .ok ((key, v) :: ms) rest5
                    | .syntaxError => .syntaxError
                    | .outOfFuel => .outOfFuel
                  else .syntaxError
                | [] => .syntaxError
              | .syntaxError => .syntaxError
              | .outOfFuel => .outOfFuel
            else .syntaxError
          | [] => .syntaxError
        | .syntaxError => .syntaxError
        | .outOfFuel => .outOfFuel
      else .syntaxError
    | [] => .syntaxError
end

/-- Fuel that suffices for an input: two units per code unit, plus two. -/
def parseFuel (text : JSString) : Nat :=
  2 * text.length + 2

/-- The function `JSON.parse(text)`: one JSON value surrounded by optional
whitespace, or a `SyntaxError`. -/
def JSON.parse (text : JSString) : Except JSError JSValue :=
  match parseValue (parseFuel text) text with
  | .ok v rest =>
    match skipWs rest with
    | [] => .ok v
    | _ :: _ => .error .syntaxError
  | .syntaxError => .error .syntaxError
  | .outOfFuel => .error .syntaxError

/-! ## Collaborators of `generateAIResponse` -/

/-- One entry of a chat history, as `addToHistory(userId, role, text)` receives
it. -/
structure Turn where
  role : JSString
  text : JSValue

/-- Modelled from the spec: the interface of `ChatHistoryManager`, whose module
`chatHistoryManager.js` is not among the sources, over a state `σ`. An append
succeeds unconditionally (spec, section 4.1) and yields the next state. A read
is given the most general outcome, a history or a thrown error, since the
outer `try` of the caller covers it. -/
structure ChatHistoryManager (σ : Type) where
  getHistory : σ → JSString → Except JSError (List Turn)
  addToHistory : σ → JSString → JSString → JSValue → σ

/-- The object `result` that `sendMessage` resolves to: `result.response.text()`
returns the raw text or throws. -/
structure GenerateContentResult where
  text : Except JSError JSString

/-- A chat session: `sendMessage(prompt)` resolves to a result or rejects. -/
structure ChatSession where
  sendMessage : JSString → Except JSError GenerateContentResult

/-- The generative model handle: `startChat` receives the history and the
response schema and returns a session or throws. -/
structure GenerativeModel where
  startChat : List Turn → JSValue → Except JSError ChatSession

/-- The constant `responseSchema` (lines 137-154). -/
def responseSchema : JSValue :=
  .object [
    (utf16 "type", .string (utf16 "object")),
    (utf16 "properties", .object [
      (utf16 "response", .object [
        (utf16 "type", .string (utf16 "string")),
        (utf16 "description", .string (utf16 "The bot's response text"))]),
      (utf16 "command", .object [
        (utf16 "type", .array [.string (utf16 "string"), .string (utf16 "null")]),
        (utf16 "description",
          .string (utf16 "Command to execute (!img, !pfp, !toggleai, !song) or null"))]),
      (utf16 "terminate", .object [
        (utf16 "type", .string (utf16 "boolean")),
        (utf16 "description", .string (utf16 "Whether to end the conversation"))])]),
    (utf16 "required", .array [.string (utf16 "response")])]

/-! ## `generateAIResponse` -/

/-- The object that `generateAIResponse` resolves to. -/
structure Reply where
  response : JSValue
  command : JSValue
  terminate : JSValue

/-- Lines 159-171 up to `result.response.text()`: read the history, start the
chat, send the prompt built from `SYSTEM_PROMPT` and the user message, take
the text of the result. Each call may throw. -/
def requestText {σ : Type} (mgr : ChatHistoryManager σ) (model : GenerativeModel)
    (SYSTEM_PROMPT userMessage userId : JSString) (s : σ) : Except JSError JSString := do
  let chatHistory ← mgr.getHistory s userId
  let chatSession ← model.startChat chatHistory responseSchema
  let result ← chatSession.sendMessage
    (SYSTEM_PROMPT ++ utf16 "\n\nUser: \"" ++ userMessage ++ utf16 "\"")
  result.text

/-- Lines 180-184: the returned object literal. -/
def buildReply (parsedResponse : JSValue) : Except JSError Reply := do
  let response ← getProp parsedResponse (utf16 "response")
  let command ← getProp parsedResponse (utf16 "command")
  let terminate ← getProp parsedResponse (utf16 "terminate")
  pure {
    response := jsOr response (.string (utf16 "خليك كده متكلمنيش 🙄")),
    command := jsOr command .null,
    terminate := jsBoolean terminate }

/-- Lines 174-184: the body of the inner `try`. Returns the reply or the
thrown error, with the history state reached. -/
def parseAndRecord {σ : Type} (mgr : ChatHistoryManager σ)
    (responseText userMessage userId : JSString) (s : σ) : Except JSError Reply × σ :=
  match JSON.parse responseText with
  | .error e => (.error e, s)
  | .ok parsedResponse =>
    let s1 := mgr.addToHistory s userId (utf16 "user") (.string userMessage)
    match getProp parsedResponse (utf16 "response") with
    | .error e => (.error e, s1)
    | .ok text =>
      let s2 := mgr.addToHistory s1 userId (utf16 "model") text
      (buildReply parsedResponse, s2)

/-- The function `generateAIResponse(userMessage, userId)` (lines 156-201),
run from history state `s`: the value the call resolves to (`.error` would be
a rejection) and the history state after it. `logger.error` does not throw. -/
def generateAIResponse {σ : Type} (mgr : ChatHistoryManager σ) (model : GenerativeModel)
    (SYSTEM_PROMPT userMessage userId : JSString) (s : σ) : Except JSError Reply × σ :=
  match requestText mgr model SYSTEM_PROMPT userMessage userId s with
  | .error _ =>
    (.ok {
      response := .string (utf16 "مش ناقصه صداع بقا"),
      command := .string (utf16 "!toggleai"),
      terminate := .bool true }, s)
  | .ok text =>
    let responseText := trim text
    match parseAndRecord mgr responseText userMessage userId s with
    | (.error _, s1) =>
      (.ok {
        response := .string (utf16 "مش ناقصه صداع بقا"),
        command := .string (utf16 "!toggleai"),
        terminate := .bool true }, s1)
    | (.ok reply, s1) => (.ok reply, s1)

/-! ## A concrete history store and a concrete backend -/

/-- Histories by user identity. -/
abbrev Store := JSString → List Turn

/-- Modelled from the spec: the session history store of
`chatHistoryManager.js`, which is not among the sources. One transcript per
user identity, bounded to `maxLen` turns; an unknown identity reads as the
empty transcript; an append evicts the oldest turns on overflow, touches the
one identity only, and always succeeds. -/
def specStore (maxLen : Nat) : ChatHistoryManager Store where
  getHistory s userId := .ok (s userId)
  addToHistory s userId role text := fun u =>
    if u = userId then
      (s u ++ [Turn.mk role text]).drop ((s u ++ [Turn.mk role text]).length - maxLen)
    else s u

/-- The store in which no identity has a history yet. -/
def emptyStore : Store := fun _ => []

/-- A backend that answers every prompt with the same raw text. -/
def constModel (raw : JSString) : GenerativeModel where
  startChat _ _ := .ok { sendMessage := fun _ => .ok { text := .ok raw } }

/-- A history manager whose read throws. -/
def failingStore : ChatHistoryManager Unit where
  getHistory _ _ := .error (.external 500)
  addToHistory _ _ _ _ := ()

/-- A backend whose completion request fails. -/
def failingModel : GenerativeModel where
  startChat _ _ := .ok { sendMessage := fun _ => .error (.external 503) }

/-! ## The parser never runs out of fuel -/

/-- Skipping whitespace does not lengthen the input. -/
theorem skipWs_length_le (l : List Nat) : (skipWs l).length ≤ l.length :=
  (List.dropWhile_sublist isJSONSpace).length_le

/-- The remainder of a `span` is no longer than the list. -/
theorem span_snd_length_le (p : Nat → Bool) (l : List Nat) : (l.span p).2.length ≤ l.length := by
  rw [List.span_eq_take_drop]
  exact (List.dropWhile_sublist p).length_le

/-- A string literal returns no more input than it was given. -/
theorem parseStringChars_rest (input acc : List Nat) (v : JSString) (rest : List Nat)
    (h : parseStringChars input acc = .ok v rest) : rest.length ≤ input.length := by
  induction input, acc using parseStringChars.induct generalizing v rest <;>
    rw [parseStringChars.eq_def] at h <;> simp_all <;> try omega
  rename_i ih
  rw [if_neg (by omega)] at h
  have := ih _ _ h
  omega

/-- The string parser uses no fuel. -/
theorem parseStringChars_fuel (input acc : List Nat) :
    parseStringChars input acc ≠ .outOfFuel := by
  induction input, acc using parseStringChars.induct <;>
    rw [parseStringChars.eq_def] <;> simp_all
  rename_i ih
  rw [if_neg (by omega)]
  exact ih

theorem parseExponent_rest (input : List Nat) (v : Int) (rest : List Nat)
    (h : parseExponent input = .ok v rest) : rest.length ≤ input.length := by
  unfold parseExponent at h
  split at h
  · rename_i c r
    have h1 := span_snd_length_le isDigit r
    split at h
    · split at h
      · rename_i s r1
        have h2 := span_snd_length_le isDigit r1
        split at h
        · split at h
          · cases h
          · rename_i ds r2 hne heq
            cases h
            rw [heq] at h2
            simp only [List.length_cons] at *
            omega
        · split at h
          · cases h
          · rename_i ds r2 hne heq
            cases h
            rw [heq] at h1
            simp only [List.length_cons] at *
            omega
      · cases h
    · cases h
      exact Nat.le_refl _
  · cases h
    exact Nat.le_refl _

theorem parseExponent_fuel (input : List Nat) : parseExponent input ≠ .outOfFuel := by
  unfold parseExponent
  repeat' split
  all_goals simp

theorem parseFraction_rest (input : List Nat) (v : List Nat) (rest : List Nat)
    (h : parseFraction input = .ok v rest) : rest.length ≤ input.length := by
  unfold parseFraction at h
  split at h
  · rename_i c r
    have h1 := span_snd_length_le isDigit r
    split at h
    · split at h
      · cases h
      · rename_i ds r2 hne heq
        cases h
        rw [heq] at h1
        simp only [List.length_cons] at *
        omega
    · cases h
      exact Nat.le_refl _
  · cases h
    exact Nat.le_refl _

theorem parseFraction_fuel (input : List Nat) : parseFraction input ≠ .outOfFuel := by
  unfold parseFraction
  repeat' split
  all_goals simp

theorem parseUnsigned_rest (negative : Bool) (input : List Nat) (v : JSNumber)
    (rest : List Nat) (h : parseUnsigned negative input = .ok v rest) :
    rest.length ≤ input.length := by
  unfold parseUnsigned at h
  have h0 := span_snd_length_le isDigit input
  split at h
  · cases h
  · rename_i d ds r heq
    rw [heq] at h0
    split at h
    · cases h
    · split at h
      · rename_i frac r1 hf
        have h1 := parseFraction_rest _ _ _ hf
        split at h
        · rename_i e r2 he
          have h2 := parseExponent_rest _ _ _ he
          cases h
          simp only at h0
          omega
        · cases h
        · cases h
      · cases h
      · cases h

theorem parseUnsigned_fuel (negative : Bool) (input : List Nat) :
    parseUnsigned negative input ≠ .outOfFuel := by
  unfold parseUnsigned
  split
  · simp
  · split
    · simp
    · split
      · split
        · simp
        · simp
        · rename_i h
          exact absurd h (parseExponent_fuel _)
      · simp
      · rename_i h
        exact absurd h (parseFraction_fuel _)

theorem parseNumber_rest (input : List Nat) (v : JSNumber) (rest : List Nat)
    (h : parseNumber input = .ok v rest) : rest.length ≤ input.length := by
  unfold parseNumber at h
  split at h
  · split at h
    · have := parseUnsigned_rest _ _ _ _ h
      simp only [List.length_cons]
      omega
    · exact parseUnsigned_rest _ _ _ _ h
  · cases h

theorem parseNumber_fuel (input : List Nat) : parseNumber input ≠ .outOfFuel := by
  unfold parseNumber
  split
  · split
    · exact parseUnsigned_fuel _ _
    · exact parseUnsigned_fuel _ _
  · simp

theorem parseKeyword_rest (word : List Nat) (value : JSValue) (input : List Nat)
    (v : JSValue) (rest : List Nat) (h : parseKeyword word value input = .ok v rest) :
    rest.length ≤ input.length := by
  unfold parseKeyword at h
  split at h
  · cases h
    simp
  · cases h

theorem parseKeyword_fuel (word : List Nat) (value : JSValue) (input : List Nat) :
    parseKeyword word value input ≠ .outOfFuel := by
  unfold parseKeyword
  split <;> simp

/-- A code unit found after whitespace was part of the input. -/
theorem skipWs_cons_length (l : List Nat) (c : Nat) (r : List Nat)
    (h : skipWs l = c :: r) : r.length + 1 ≤ l.length := by
  have := skipWs_length_le l
  rw [h] at this
  exact this

/-- No parsing function returns more input than it was given. -/
theorem parse_rest_le (fuel : Nat) :
    (∀ input v rest, parseValue fuel input = .ok v rest → rest.length ≤ input.length) ∧
    (∀ input v rest, parseElements fuel input = .ok v rest → rest.length ≤ input.length) ∧
    (∀ input v rest, parseMembers fuel input = .ok v rest → rest.length ≤ input.length) := by
  induction fuel with
  | zero =>
    refine ⟨?_, ?_, ?_⟩ <;> intro input v rest h
    · rw [parseValue] at h; cases h
    · rw [parseElements] at h; cases h
    · rw [parseMembers] at h; cases h
  | succ fuel ih =>
    obtain ⟨ihV, ihE, ihM⟩ := ih
    refine ⟨?_, ?_, ?_⟩ <;> intro input v rest h
    · rw [parseValue] at h
      split at h
      · cases h
      · rename_i c r hws
        have hw := skipWs_cons_length _ _ _ hws
        split at h
        · split at h
          · rename_i d r1 hws1
            have hw1 := skipWs_cons_length _ _ _ hws1
            split at h
            · cases h; omega
            · split at h
              · rename_i ms r2 hm
                have := ihM _ _ _ hm
                cases h
                simp only [List.length_cons] at this
                omega
              · cases h
              · cases h
          · cases h
        · split at h
          · split at h
            · rename_i d r1 hws1
              have hw1 := skipWs_cons_length _ _ _ hws1
              split at h
              · cases h; omega
              · split at h
                · rename_i es r2 hm
                  have := ihE _ _ _ hm
                  cases h
                  simp only [List.length_cons] at this
                  omega
                · cases h
                · cases h
            · cases h
          · split at h
            · split at h
              · rename_i x r1 hs
                have := parseStringChars_rest _ _ _ _ hs
                cases h
                omega
              · cases h
              · cases h
            · split at h
              · split at h
                · rename_i n r1 hn
                  have := parseNumber_rest _ _ _ hn
                  cases h
                  simp only [List.length_cons] at this
                  omega
                · cases h
                · cases h
              · split at h
                · have := parseKeyword_rest _ _ _ _ _ h
                  simp only [List.length_cons] at this
                  omega
                · split at h
                  · have := parseKeyword_rest _ _ _ _ _ h
                    simp only [List.length_cons] at this
                    omega
                  · split at h
                    · have := parseKeyword_rest _ _ _ _ _ h
                      simp only [List.length_cons] at this
                      omega
                    · cases h
    · rw [parseElements] at h
      split at h
      · rename_i x r hx
        have h0 := ihV _ _ _ hx
        split at h
        · rename_i c r1 hws
          have hw := skipWs_cons_length _ _ _ hws
          split at h
          · cases h; omega
          · split at h
            · split at h
              · rename_i xs r2 hxs
                have := ihE _ _ _ hxs
                cases h
                omega
              · cases h
              · cases h
            · cases h
        · cases h
      · cases h
      · cases h
    · rw [parseMembers] at h
      split at h
      · rename_i q r hws
        have hw := skipWs_cons_length _ _ _ hws
        split at h
        · split at h
          · rename_i key r1 hs
            have h1 := parseStringChars_rest _ _ _ _ hs
            split at h
            · rename_i colon r2 hws2
              have hw2 := skipWs_cons_length _ _ _ hws2
              split at h
              · split at h
                · rename_i x r3 hx
                  have h3 := ihV _ _ _ hx
                  split at h
                  · rename_i c r4 hws4
                    have hw4 := skipWs_cons_length _ _ _ hws4
                    split at h
                    · cases h; omega
                    · split at h
                      · split at h
                        · rename_i ms r5 hms
                          have := ihM _ _ _ hms
                          cases h
                          omega
                        · cases h
                        · cases h
                      · cases h
                  · cases h
                · cases h
                · cases h
              · cases h
            · cases h
          · cases h
          · cases h
        · cases h
      · cases h

/-- With two units of fuel per code unit of input (plus one for a value, plus
two for elements and members), no parsing function runs out of fuel. -/
theorem parse_fuel_suffices (fuel : Nat) :
    (∀ input, 2 * input.length + 1 ≤ fuel → parseValue fuel input ≠ .outOfFuel) ∧
    (∀ input, 2 * input.length + 2 ≤ fuel → parseElements fuel input ≠ .outOfFuel) ∧
    (∀ input, 2 * input.length + 2 ≤ fuel → parseMembers fuel input ≠ .outOfFuel) := by
  induction fuel with
  | zero =>
    refine ⟨?_, ?_, ?_⟩ <;> intro input hf <;> omega
  | succ fuel ih =>
    obtain ⟨ihV, ihE, ihM⟩ := ih
    refine ⟨?_, ?_, ?_⟩ <;> intro input hf h
    · rw [parseValue] at h
      split at h
      · cases h
      · rename_i c r hws
        have hw := skipWs_cons_length _ _ _ hws
        split at h
        · split at h
          · rename_i d r1 hws1
            have hw1 := skipWs_cons_length _ _ _ hws1
            split at h
            · cases h
            · split at h
              · cases h
              · cases h
              · rename_i hm
                exact ihM _ (by simp only [List.length_cons]; omega) hm
          · cases h
        · split at h
          · split at h
            · rename_i d r1 hws1
              have hw1 := skipWs_cons_length _ _ _ hws1
              split at h
              · cases h
              · split at h
                · cases h
                · cases h
                · rename_i hm
                  exact ihE _ (by simp only [List.length_cons]; omega) hm
            · cases h
          · split at h
            · split at h
              · cases h
              · cases h
              · rename_i hs
                exact parseStringChars_fuel _ _ hs
            · split at h
              · split at h
                · cases h
                · cases h
                · rename_i hn
                  exact parseNumber_fuel _ hn
              · split at h
                · exact parseKeyword_fuel _ _ _ h
                · split at h
                  · exact parseKeyword_fuel _ _ _ h
                  · split at h
                    · exact parseKeyword_fuel _ _ _ h
                    · cases h
    · rw [parseElements] at h
      split at h
      · rename_i x r hx
        have h0 := (parse_rest_le fuel).1 _ _ _ hx
        split at h
        · rename_i c r1 hws
          have hw := skipWs_cons_length _ _ _ hws
          split at h
          · cases h
          · split at h
            · split at h
              · cases h
              · cases h
              · rename_i hxs
                exact ihE _ (by omega) hxs
            · cases h
        · cases h
      · cases h
      · rename_i hx
        exact ihV _ (by omega) hx
    · rw [parseMembers] at h
      split at h
      · rename_i q r hws
        have hw := skipWs_cons_length _ _ _ hws
        split at h
        · split at h
          · rename_i key r1 hs
            have h1 := parseStringChars_rest _ _ _ _ hs
            split at h
            · rename_i colon r2 hws2
              have hw2 := skipWs_cons_length _ _ _ hws2
              split at h
              · split at h
                · rename_i x r3 hx
                  have h3 := (parse_rest_le fuel).1 _ _ _ hx
                  split at h
                  · rename_i c r4 hws4
                    have hw4 := skipWs_cons_length _ _ _ hws4
                    split at h
                    · cases h
                    · split at h
                      · split at h
                        · cases h
                        · cases h
                        · rename_i hms
                          exact ihM _ (by omega) hms
                      · cases h
                  · cases h
                · cases h
                · rename_i hx
                  exact ihV _ (by omega) hx
              · cases h
            · cases h
          · cases h
          · rename_i hs
            exact parseStringChars_fuel _ _ hs
        · cases h
      · cases h

/-- The fuel that `JSON.parse` gives the parser is never exhausted: an error of
`JSON.parse` is a syntax error of the text. -/
theorem parseValue_parseFuel (text : JSString) :
    parseValue (parseFuel text) text ≠ .outOfFuel :=
  (parse_fuel_suffices (parseFuel text)).1 text (by unfold parseFuel; omega)

/-- One more unit of fuel does not change a result that did not run out of
fuel. -/
theorem parse_fuel_succ (fuel : Nat) :
    (∀ input, parseValue fuel input ≠ .outOfFuel →
      parseValue (fuel + 1) input = parseValue fuel input) ∧
    (∀ input, parseElements fuel input ≠ .outOfFuel →
      parseElements (fuel + 1) input = parseElements fuel input) ∧
    (∀ input, parseMembers fuel input ≠ .outOfFuel →
      parseMembers (fuel + 1) input = parseMembers fuel input) := by
  induction fuel with
  | zero =>
    refine ⟨?_, ?_, ?_⟩ <;> intro input h
    · exact absurd (by rw [parseValue]) h
    · exact absurd (by rw [parseElements]) h
    · exact absurd (by rw [parseMembers]) h
  | succ fuel ih =>
    obtain ⟨ihV, ihE, ihM⟩ := ih
    refine ⟨?_, ?_, ?_⟩ <;> intro input h
    · rw [parseValue] at h
      rw [parseValue, parseValue]
      split
      · rfl
      · rename_i c r hws
        split
        · rename_i hc
          split
          · rename_i d r1 hws1
            split
            · rfl
            · rename_i hd
              by_cases hM : parseMembers fuel (d :: r1) = .outOfFuel
              · simp [hws, hc, hws1, hd, hM] at h
              · rw [ihM _ hM]
          · rfl
        · rename_i hc
          split
          · rename_i hc1
            split
            · rename_i d r1 hws1
              split
              · rfl
              · rename_i hd
                by_cases hE : parseElements fuel (d :: r1) = .outOfFuel
                · simp [hws, hc, hc1, hws1, hd, hE] at h
                · rw [ihE _ hE]
            · rfl
          · rfl
    · rw [parseElements] at h
      rw [parseElements, parseElements]
      by_cases hV : parseValue fuel input = .outOfFuel
      · simp [hV] at h
      · rw [ihV _ hV]
        split
        · rename_i x r hx
          split
          · rename_i c r1 hws
            split
            · rfl
            · rename_i hc
              split
              · rename_i hc1
                by_cases hE : parseElements fuel r1 = .outOfFuel
                · simp [hx, hws, hc, hc1, hE] at h
                · rw [ihE _ hE]
              · rfl
          · rfl
        · rfl
        · rfl
    · rw [parseMembers] at h
      rw [parseMembers, parseMembers]
      split
      · rename_i q r hws
        split
        · rename_i hq
          split
          · rename_i key r1 hs
            split
            · rename_i colon r2 hws2
              split
              · rename_i hcolon
                by_cases hV : parseValue fuel r2 = .outOfFuel
                · simp [hws, hq, hs, hws2, hcolon, hV] at h
                · rw [ihV _ hV]
                  split
                  · rename_i x r3 hx
                    split
                    · rename_i c r4 hws4
                      split
                      · rfl
                      · rename_i hc
                        split
                        · rename_i hc1
                          by_cases hM : parseMembers fuel r4 = .outOfFuel
                          · simp [hws, hq, hs, hws2, hcolon, hx, hws4, hc, hc1, hM] at h
                          · rw [ihM _ hM]
                        · rfl
                    · rfl
                  · rfl
                  · rfl
              · rfl
            · rfl
          · rfl
          · rfl
        · rfl
      · rfl

/-- Any fuel beyond `parseFuel` gives the result that `parseFuel` gives. -/
theorem parseValue_fuel_irrelevant (text : JSString) (extra : Nat) :
    parseValue (parseFuel text + extra) text = parseValue (parseFuel text) text := by
  induction extra with
  | zero => rfl
  | succ n ih =>
    rw [← Nat.add_assoc, (parse_fuel_succ (parseFuel text + n)).1 text
      (by rw [ih]; exact parseValue_parseFuel text), ih]


/-! ## The paths of `generateAIResponse` -/

theorem except_cases {ε α : Type} (x : Except ε α) :
    (∃ e, x = .error e) ∨ (∃ a, x = .ok a) := by
  cases x with
  | error e => exact Or.inl ⟨e, rfl⟩
  | ok a => exact Or.inr ⟨a, rfl⟩

/-- The outer `catch`: a failure before the text is read. -/
theorem generateAIResponse_of_requestError {σ : Type} (mgr : ChatHistoryManager σ)
    (model : GenerativeModel) (SYSTEM_PROMPT userMessage userId : JSString) (s : σ)
    (e : JSError) (h : requestText mgr model SYSTEM_PROMPT userMessage userId s = .error e) :
    generateAIResponse mgr model SYSTEM_PROMPT userMessage userId s =
      (.ok ⟨.string (utf16 "مش ناقصه صداع بقا"), .string (utf16 "!toggleai"), .bool true⟩, s) := by
  simp [generateAIResponse, h]

/-- The inner `catch` on a `SyntaxError` of `JSON.parse`. -/
theorem generateAIResponse_of_parseError {σ : Type} (mgr : ChatHistoryManager σ)
    (model : GenerativeModel) (SYSTEM_PROMPT userMessage userId : JSString) (s : σ)
    (raw : JSString) (e : JSError)
    (h : requestText mgr model SYSTEM_PROMPT userMessage userId s = .ok raw)
    (hp : JSON.parse (trim raw) = .error e) :
    generateAIResponse mgr model SYSTEM_PROMPT userMessage userId s =
      (.ok ⟨.string (utf16 "مش ناقصه صداع بقا"), .string (utf16 "!toggleai"), .bool true⟩, s) := by
  simp [generateAIResponse, h, parseAndRecord, hp]

/-- The inner `catch` on a `TypeError` of `parsedResponse.response`, raised
after the user turn was appended. -/
theorem generateAIResponse_of_getProp_error {σ : Type} (mgr : ChatHistoryManager σ)
    (model : GenerativeModel) (SYSTEM_PROMPT userMessage userId : JSString) (s : σ)
    (raw : JSString) (parsed : JSValue) (e : JSError)
    (h : requestText mgr model SYSTEM_PROMPT userMessage userId s = .ok raw)
    (hp : JSON.parse (trim raw) = .ok parsed)
    (hx : getProp parsed (utf16 "response") = .error e) :
    generateAIResponse mgr model SYSTEM_PROMPT userMessage userId s =
      (.ok ⟨.string (utf16 "مش ناقصه صداع بقا"), .string (utf16 "!toggleai"), .bool true⟩,
        mgr.addToHistory s userId (utf16 "user") (.string userMessage)) := by
  simp [generateAIResponse, h, parseAndRecord, hp, hx]

/-- The run on a decoded value whose properties can be read. -/
theorem generateAIResponse_of_decoded {σ : Type} (mgr : ChatHistoryManager σ)
    (model : GenerativeModel) (SYSTEM_PROMPT userMessage userId : JSString) (s : σ)
    (raw : JSString) (parsed x y z : JSValue)
    (h : requestText mgr model SYSTEM_PROMPT userMessage userId s = .ok raw)
    (hp : JSON.parse (trim raw) = .ok parsed)
    (hx : getProp parsed (utf16 "response") = .ok x)
    (hy : getProp parsed (utf16 "command") = .ok y)
    (hz : getProp parsed (utf16 "terminate") = .ok z) :
    generateAIResponse mgr model SYSTEM_PROMPT userMessage userId s =
      (.ok ⟨jsOr x (.string (utf16 "خليك كده متكلمنيش 🙄")), jsOr y .null, jsBoolean z⟩,
        mgr.addToHistory (mgr.addToHistory s userId (utf16 "user") (.string userMessage))
          userId (utf16 "model") x) := by
  simp [generateAIResponse, h, parseAndRecord, hp, hx, buildReply, hy, hz]
  rfl

/-- The run on a decoded object. -/
theorem generateAIResponse_of_object {σ : Type} (mgr : ChatHistoryManager σ)
    (model : GenerativeModel) (SYSTEM_PROMPT userMessage userId : JSString) (s : σ)
    (raw : JSString) (members : List (JSString × JSValue))
    (h : requestText mgr model SYSTEM_PROMPT userMessage userId s = .ok raw)
    (hp : JSON.parse (trim raw) = .ok (.object members)) :
    generateAIResponse mgr model SYSTEM_PROMPT userMessage userId s =
      (.ok ⟨jsOr (lookupMember (utf16 "response") members)
              (.string (utf16 "خليك كده متكلمنيش 🙄")),
            jsOr (lookupMember (utf16 "command") members) .null,
            jsBoolean (lookupMember (utf16 "terminate") members)⟩,
        mgr.addToHistory (mgr.addToHistory s userId (utf16 "user") (.string userMessage))
          userId (utf16 "model") (lookupMember (utf16 "response") members)) :=
  generateAIResponse_of_decoded mgr model SYSTEM_PROMPT userMessage userId s raw _ _ _ _
    h hp rfl rfl rfl

/-- Reading one property succeeds exactly when reading another does. -/
theorem getProp_ok_of_ok (v x : JSValue) (k k1 : JSString) (h : getProp v k = .ok x) :
    ∃ y, getProp v k1 = .ok y := by
  cases v <;> simp [getProp] at h ⊢

/-- The value of `v || d` for a default `d` that is a non-empty string: a
non-empty string, or `v` itself when `v` is truthy and not a string. -/
theorem jsOr_string_default (v : JSValue) (d : JSString) (hd : d ≠ []) :
    (∃ r, jsOr v (.string d) = .string r ∧ r ≠ []) ∨
      (jsOr v (.string d) = v ∧ toBoolean v = true ∧ ∀ r, v ≠ .string r) := by
  cases v with
  | string x =>
    cases x with
    | nil => exact Or.inl ⟨d, rfl, hd⟩
    | cons a as => exact Or.inl ⟨a :: as, rfl, by simp⟩
  | undefined => exact Or.inl ⟨d, rfl, hd⟩
  | null => exact Or.inl ⟨d, rfl, hd⟩
  | bool b =>
    cases b with
    | false => exact Or.inl ⟨d, rfl, hd⟩
    | true => exact Or.inr ⟨rfl, rfl, by simp⟩
  | number n =>
    by_cases hn : toBoolean (.number n) = true
    · exact Or.inr ⟨by simp [jsOr, hn], hn, by simp⟩
    · exact Or.inl ⟨d, by simp [jsOr, hn], hd⟩
  | array xs => exact Or.inr ⟨rfl, rfl, by simp⟩
  | object ms => exact Or.inr ⟨rfl, rfl, by simp⟩

/-- The value of `v || null`: null, a non-empty string, or `v` itself when `v`
is truthy and not a string. -/
theorem jsOr_null_default (v : JSValue) :
    jsOr v .null = .null ∨ (∃ c, jsOr v .null = .string c ∧ c ≠ []) ∨
      (jsOr v .null = v ∧ toBoolean v = true ∧ ∀ c, v ≠ .string c) := by
  cases v with
  | string x =>
    cases x with
    | nil => exact Or.inl rfl
    | cons a as => exact Or.inr (Or.inl ⟨a :: as, rfl, by simp⟩)
  | undefined => exact Or.inl rfl
  | null => exact Or.inl rfl
  | bool b =>
    cases b with
    | false => exact Or.inl rfl
    | true => exact Or.inr (Or.inr ⟨rfl, rfl, by simp⟩)
  | number n =>
    by_cases hn : toBoolean (.number n) = true
    · exact Or.inr (Or.inr ⟨by simp [jsOr, hn], hn, by simp⟩)
    · exact Or.inl (by simp [jsOr, hn])
  | array xs => exact Or.inr (Or.inr ⟨rfl, rfl, by simp⟩)
  | object ms => exact Or.inr (Or.inr ⟨rfl, rfl, by simp⟩)

/-- An append of the specified store leaves every other identity as it was. -/
theorem specStore_addToHistory_other (maxLen : Nat) (s : Store)
    (userId role : JSString) (text : JSValue) (u : JSString) (h : u ≠ userId) :
    (specStore maxLen).addToHistory s userId role text u = s u := by
  simp [specStore, h]

/-- An append of the specified store keeps the history within the bound. -/
theorem specStore_addToHistory_length (maxLen : Nat) (s : Store)
    (userId role : JSString) (text : JSValue) :
    ((specStore maxLen).addToHistory s userId role text userId).length ≤ maxLen := by
  simp [specStore]
  omega

/-- On a decoded object whose `response` is truthy, the call makes the two
appends for `userId`, and the text of the model turn is the returned
response. -/
theorem generateAIResponse_records_exchange {σ : Type} (mgr : ChatHistoryManager σ)
    (model : GenerativeModel) (SYSTEM_PROMPT userMessage userId : JSString) (s : σ)
    (raw : JSString) (members : List (JSString × JSValue))
    (h : requestText mgr model SYSTEM_PROMPT userMessage userId s = .ok raw)
    (hp : JSON.parse (trim raw) = .ok (.object members))
    (hr : toBoolean (lookupMember (utf16 "response") members) = true) :
    ∃ reply, (generateAIResponse mgr model SYSTEM_PROMPT userMessage userId s).1 = .ok reply ∧
      (generateAIResponse mgr model SYSTEM_PROMPT userMessage userId s).2 =
        mgr.addToHistory (mgr.addToHistory s userId (utf16 "user") (.string userMessage))
          userId (utf16 "model") reply.response := by
  rw [generateAIResponse_of_object mgr model SYSTEM_PROMPT userMessage userId s raw members h hp]
  refine ⟨_, rfl, ?_⟩
  show _ = mgr.addToHistory _ userId (utf16 "model") (jsOr _ _)
  simp [jsOr, hr]

/-- An error of `JSON.parse` is a `SyntaxError`. -/
theorem JSON_parse_error (text : JSString) (e : JSError) (h : JSON.parse text = .error e) :
    e = .syntaxError := by
  unfold JSON.parse at h
  split at h
  · split at h
    · cases h
    · cases h; rfl
  · cases h; rfl
  · cases h; rfl

/-! ## Claims -/

/-- C1, counterexample: on the backend text `{"response":5,"command":7}` the
call resolves to an object whose `response` is the number 5 and whose
`command` is the number 7: neither is a string, and the command is not null. -/
theorem numeric_fields_pass_through :
    (generateAIResponse (specStore 50) (constModel (utf16 "\x7b\"response\":5,\"command\":7\x7d")) []
        (utf16 "hi") (utf16 "u1") emptyStore).1 =
      .ok ⟨.number ⟨false, 5, 0⟩, .number ⟨false, 7, 0⟩, .bool false⟩ ∧
    (∀ r, JSValue.number ⟨false, 5, 0⟩ ≠ .string r) ∧
    (∀ c, JSValue.number ⟨false, 7, 0⟩ ≠ .string c) ∧
    JSValue.number ⟨false, 7, 0⟩ ≠ .null :=
  ⟨rfl, fun _ h => JSValue.noConfusion h, fun _ h => JSValue.noConfusion h,
    fun h => JSValue.noConfusion h⟩

/-- C1, amended: for every backend behaviour (every raw text, and every
failure) `generateAIResponse` resolves, without raising, to an object whose
`terminate` is a boolean; whose `response` is a non-empty string, unless the
decoded `response` is truthy and not a string, which is returned as it is; and
whose `command` is null or a non-empty string, unless the decoded `command` is
truthy and not a string, which is returned as it is. -/
theorem reply_is_always_produced {σ : Type} (mgr : ChatHistoryManager σ)
    (model : GenerativeModel) (SYSTEM_PROMPT userMessage userId : JSString) (s : σ) :
    ∃ reply, (generateAIResponse mgr model SYSTEM_PROMPT userMessage userId s).1 = .ok reply ∧
      (∃ b, reply.terminate = .bool b) ∧
      ((∃ r, reply.response = .string r ∧ r ≠ []) ∨
        (∃ raw parsed, requestText mgr model SYSTEM_PROMPT userMessage userId s = .ok raw ∧
          JSON.parse (trim raw) = .ok parsed ∧
          getProp parsed (utf16 "response") = .ok reply.response ∧
          toBoolean reply.response = true ∧ ∀ r, reply.response ≠ .string r)) ∧
      (reply.command = .null ∨ (∃ c, reply.command = .string c ∧ c ≠ []) ∨
        (∃ raw parsed, requestText mgr model SYSTEM_PROMPT userMessage userId s = .ok raw ∧
          JSON.parse (trim raw) = .ok parsed ∧
          getProp parsed (utf16 "command") = .ok reply.command ∧
          toBoolean reply.command = true ∧ ∀ c, reply.command ≠ .string c)) := by
  have degraded : ∀ t : σ,
      generateAIResponse mgr model SYSTEM_PROMPT userMessage userId s =
        (.ok ⟨.string (utf16 "مش ناقصه صداع بقا"), .string (utf16 "!toggleai"), .bool true⟩, t) →
      ∃ reply, (generateAIResponse mgr model SYSTEM_PROMPT userMessage userId s).1 = .ok reply ∧
      (∃ b, reply.terminate = .bool b) ∧
      ((∃ r, reply.response = .string r ∧ r ≠ []) ∨
        (∃ raw parsed, requestText mgr model SYSTEM_PROMPT userMessage userId s = .ok raw ∧
          JSON.parse (trim raw) = .ok parsed ∧
          getProp parsed (utf16 "response") = .ok reply.response ∧
          toBoolean reply.response = true ∧ ∀ r, reply.response ≠ .string r)) ∧
      (reply.command = .null ∨ (∃ c, reply.command = .string c ∧ c ≠ []) ∨
        (∃ raw parsed, requestText mgr model SYSTEM_PROMPT userMessage userId s = .ok raw ∧
          JSON.parse (trim raw) = .ok parsed ∧
          getProp parsed (utf16 "command") = .ok reply.command ∧
          toBoolean reply.command = true ∧ ∀ c, reply.command ≠ .string c)) := by
    intro t ht
    rw [ht]
    exact ⟨_, rfl, ⟨true, rfl⟩, Or.inl ⟨_, rfl, by decide⟩, Or.inr (Or.inl ⟨_, rfl, by decide⟩)⟩
  rcases except_cases (requestText mgr model SYSTEM_PROMPT userMessage userId s) with
    ⟨e, hreq⟩ | ⟨raw, hreq⟩
  · exact degraded s
      (generateAIResponse_of_requestError mgr model SYSTEM_PROMPT userMessage userId s e hreq)
  · rcases except_cases (JSON.parse (trim raw)) with ⟨e, hp⟩ | ⟨parsed, hp⟩
    · exact degraded s
        (generateAIResponse_of_parseError mgr model SYSTEM_PROMPT userMessage userId s raw e
          hreq hp)
    · rcases except_cases (getProp parsed (utf16 "response")) with ⟨e, hx⟩ | ⟨x, hx⟩
      · exact degraded _
          (generateAIResponse_of_getProp_error mgr model SYSTEM_PROMPT userMessage userId s
            raw parsed e hreq hp hx)
      · obtain ⟨y, hy⟩ := getProp_ok_of_ok parsed x (utf16 "response") (utf16 "command") hx
        obtain ⟨z, hz⟩ := getProp_ok_of_ok parsed x (utf16 "response") (utf16 "terminate") hx
        rw [generateAIResponse_of_decoded mgr model SYSTEM_PROMPT userMessage userId s
          raw parsed x y z hreq hp hx hy hz]
        refine ⟨_, rfl, ⟨toBoolean z, rfl⟩, ?_, ?_⟩
        · rcases jsOr_string_default x (utf16 "خليك كده متكلمنيش 🙄") (by decide) with h | h
          · exact Or.inl h
          · refine Or.inr ⟨raw, parsed, hreq, hp, ?_, ?_, ?_⟩
            · show getProp parsed (utf16 "response") = .ok (jsOr x _)
              rw [h.1]; exact hx
            · show toBoolean (jsOr x _) = true
              rw [h.1]; exact h.2.1
            · show ∀ r, jsOr x _ ≠ .string r
              rw [h.1]; exact h.2.2
        · rcases jsOr_null_default y with h | h | h
          · exact Or.inl h
          · exact Or.inr (Or.inl h)
          · refine Or.inr (Or.inr ⟨raw, parsed, hreq, hp, ?_, ?_, ?_⟩)
            · show getProp parsed (utf16 "command") = .ok (jsOr y _)
              rw [h.1]; exact hy
            · show toBoolean (jsOr y _) = true
              rw [h.1]; exact h.2.1
            · show ∀ c, jsOr y _ ≠ .string c
              rw [h.1]; exact h.2.2

/-- C2: when the raw backend text, once trimmed, is not valid JSON,
`generateAIResponse` resolves to the fixed degraded reply with response
"مش ناقصه صداع بقا", command "!toggleai" and terminate true, whatever the text,
the user identity, the user message, the prompt and the prior history are. -/
theorem malformed_text_gives_degraded_reply {σ : Type} (mgr : ChatHistoryManager σ)
    (model : GenerativeModel) (SYSTEM_PROMPT userMessage userId : JSString) (s : σ)
    (raw : JSString) (e : JSError)
    (hraw : requestText mgr model SYSTEM_PROMPT userMessage userId s = .ok raw)
    (hbad : JSON.parse (trim raw) = .error e) :
    (generateAIResponse mgr model SYSTEM_PROMPT userMessage userId s).1 =
      .ok ⟨.string (utf16 "مش ناقصه صداع بقا"), .string (utf16 "!toggleai"), .bool true⟩ := by
  rw [generateAIResponse_of_parseError mgr model SYSTEM_PROMPT userMessage userId s raw e hraw hbad]

/-- C2, witness: the texts `not json at all` and the empty string are not
valid JSON, and both runs resolve to the degraded reply. -/
theorem malformed_text_gives_degraded_reply_witness :
    JSON.parse (trim (utf16 "not json at all")) = .error .syntaxError ∧
    (generateAIResponse (specStore 50) (constModel (utf16 "not json at all")) []
        (utf16 "hi") (utf16 "u1") emptyStore).1 =
      .ok ⟨.string (utf16 "مش ناقصه صداع بقا"), .string (utf16 "!toggleai"), .bool true⟩ ∧
    (generateAIResponse (specStore 50) (constModel (utf16 "")) []
        (utf16 "hello") (utf16 "u2") emptyStore).1 =
      .ok ⟨.string (utf16 "مش ناقصه صداع بقا"), .string (utf16 "!toggleai"), .bool true⟩ :=
  ⟨rfl,
   malformed_text_gives_degraded_reply (specStore 50) (constModel (utf16 "not json at all")) []
    (utf16 "hi") (utf16 "u1") emptyStore
     (utf16 "not json at all") .syntaxError rfl rfl,
   malformed_text_gives_degraded_reply (specStore 50) (constModel (utf16 "")) []
    (utf16 "hello") (utf16 "u2") emptyStore
     (utf16 "") .syntaxError rfl rfl⟩

/-- C3: when reading the history, starting the chat session, the completion
request or taking its text fails, `generateAIResponse` does not raise: it
resolves to the reply with response "مش ناقصه صداع بقا", command "!toggleai"
and terminate true, and every run on malformed model output resolves to the
same reply. -/
theorem transport_failure_gives_degraded_reply {σ : Type} (mgr : ChatHistoryManager σ)
    (model : GenerativeModel) (SYSTEM_PROMPT userMessage userId : JSString) (s : σ)
    (e : JSError)
    (hfail : requestText mgr model SYSTEM_PROMPT userMessage userId s = .error e) :
    (generateAIResponse mgr model SYSTEM_PROMPT userMessage userId s).1 =
      .ok ⟨.string (utf16 "مش ناقصه صداع بقا"), .string (utf16 "!toggleai"), .bool true⟩ ∧
    ∀ (τ : Type) (mgr1 : ChatHistoryManager τ) (model1 : GenerativeModel)
      (prompt1 userMessage1 userId1 : JSString) (t : τ) (raw : JSString) (e1 : JSError),
      requestText mgr1 model1 prompt1 userMessage1 userId1 t = .ok raw →
      JSON.parse (trim raw) = .error e1 →
      (generateAIResponse mgr1 model1 prompt1 userMessage1 userId1 t).1 =
        (generateAIResponse mgr model SYSTEM_PROMPT userMessage userId s).1 := by
  constructor
  · rw [generateAIResponse_of_requestError mgr model SYSTEM_PROMPT userMessage userId s e hfail]
  · intro τ mgr1 model1 prompt1 userMessage1 userId1 t raw e1 h1 h2
    rw [generateAIResponse_of_requestError mgr model SYSTEM_PROMPT userMessage userId s e hfail,
      generateAIResponse_of_parseError mgr1 model1 prompt1 userMessage1 userId1 t raw e1 h1 h2]

/-- C3, witness: a failing completion request and a failing history read both
resolve to the degraded reply, the one of the malformed text `not json at all`. -/
theorem transport_failure_gives_degraded_reply_witness :
    requestText (specStore 50) failingModel [] (utf16 "hi") (utf16 "u1") emptyStore =
      .error (.external 503) ∧
    requestText failingStore (constModel (utf16 "ok")) [] (utf16 "hi") (utf16 "u1") () =
      .error (.external 500) ∧
    (generateAIResponse failingStore (constModel (utf16 "ok")) [] (utf16 "hi") (utf16 "u1")
        ()).1 =
      .ok ⟨.string (utf16 "مش ناقصه صداع بقا"), .string (utf16 "!toggleai"), .bool true⟩ ∧
    (generateAIResponse (specStore 50) failingModel [] (utf16 "hi") (utf16 "u1") emptyStore).1 =
      (generateAIResponse (specStore 50) (constModel (utf16 "not json at all")) []
        (utf16 "hi") (utf16 "u1") emptyStore).1 :=
  ⟨rfl, rfl,
   (transport_failure_gives_degraded_reply failingStore (constModel (utf16 "ok")) []
      (utf16 "hi") (utf16 "u1") () (.external 500) rfl).1,
   ((transport_failure_gives_degraded_reply (specStore 50) failingModel [] (utf16 "hi")
      (utf16 "u1") emptyStore (.external 503) rfl).2 Store (specStore 50) (constModel (utf16 "not json at all")) []
    (utf16 "hi") (utf16 "u1") emptyStore
      (utf16 "not json at all") .syntaxError rfl rfl).symm⟩

/-- C4: when the backend output decodes to a JSON object whose `response` is a
non-empty string `r`, whose `command` is absent, null or a non-empty string
`c`, and whose `terminate` is absent or a boolean `t`, `generateAIResponse`
resolves to exactly the object with response `r`, command `c` (null when
absent or null) and terminate `t` (false when absent). -/
theorem well_typed_object_is_returned {σ : Type} (mgr : ChatHistoryManager σ)
    (model : GenerativeModel) (SYSTEM_PROMPT userMessage userId : JSString) (s : σ)
    (raw : JSString) (members : List (JSString × JSValue))
    (r : JSString) (c : Option JSString) (t : Option Bool)
    (hraw : requestText mgr model SYSTEM_PROMPT userMessage userId s = .ok raw)
    (hparse : JSON.parse (trim raw) = .ok (.object members))
    (hr : lookupMember (utf16 "response") members = .string r) (hr0 : r ≠ [])
    (hc : match c with
      | none => lookupMember (utf16 "command") members = .undefined ∨
          lookupMember (utf16 "command") members = .null
      | some c1 => lookupMember (utf16 "command") members = .string c1 ∧ c1 ≠ [])
    (ht : match t with
      | none => lookupMember (utf16 "terminate") members = .undefined
      | some b => lookupMember (utf16 "terminate") members = .bool b) :
    (generateAIResponse mgr model SYSTEM_PROMPT userMessage userId s).1 =
      .ok ⟨.string r, (c.map JSValue.string).getD .null, .bool (t.getD false)⟩ := by
  rw [generateAIResponse_of_object mgr model SYSTEM_PROMPT userMessage userId s raw members
    hraw hparse]
  have e1 : jsOr (lookupMember (utf16 "response") members)
      (.string (utf16 "خليك كده متكلمنيش 🙄")) = .string r := by
    cases r with
    | nil => exact absurd rfl hr0
    | cons a as => rw [hr]; rfl
  have e2 : jsOr (lookupMember (utf16 "command") members) .null =
      (c.map JSValue.string).getD .null := by
    cases c with
    | none =>
      rcases hc with hc | hc <;> rw [hc] <;> rfl
    | some c1 =>
      obtain ⟨hc1, hc2⟩ := hc
      cases c1 with
      | nil => exact absurd rfl hc2
      | cons a as => rw [hc1]; rfl
  have e3 : jsBoolean (lookupMember (utf16 "terminate") members) = .bool (t.getD false) := by
    cases t with
    | none => rw [ht]; rfl
    | some b => rw [ht]; rfl
  simp only [e1, e2, e3]

/-- C4, witness: `{"response":"ok"}` resolves to response "ok", command null
and terminate false, and two fully populated objects are returned unchanged. -/
theorem well_typed_object_is_returned_witness :
    (generateAIResponse (specStore 50) (constModel (utf16 "\x7b\"response\":\"ok\"\x7d")) []
        (utf16 "hi") (utf16 "u1") emptyStore).1 =
      .ok ⟨.string (utf16 "ok"), .null, .bool false⟩ ∧
    (generateAIResponse (specStore 50) (constModel (utf16 "\x7b\"response\":\"ولا يهمك يابا\",\"command\":null,\"terminate\":true\x7d")) []
        (utf16 "thanks") (utf16 "u1") emptyStore).1 =
      .ok ⟨.string (utf16 "ولا يهمك يابا"), .null, .bool true⟩ ∧
    (generateAIResponse (specStore 50) (constModel (utf16 "\x7b\"response\":\"on it\",\"command\":\"!img horse\",\"terminate\":false\x7d")) []
        (utf16 "hi") (utf16 "u1") emptyStore).1 =
      .ok ⟨.string (utf16 "on it"), .string (utf16 "!img horse"), .bool false⟩ :=
  ⟨well_typed_object_is_returned (specStore 50) (constModel (utf16 "\x7b\"response\":\"ok\"\x7d")) []
    (utf16 "hi") (utf16 "u1") emptyStore
     (utf16 "\x7b\"response\":\"ok\"\x7d") [(utf16 "response", .string (utf16 "ok"))]
     (utf16 "ok") none none rfl rfl rfl (by decide) (Or.inl rfl) rfl,
   well_typed_object_is_returned (specStore 50) (constModel (utf16 "\x7b\"response\":\"ولا يهمك يابا\",\"command\":null,\"terminate\":true\x7d")) []
    (utf16 "thanks") (utf16 "u1") emptyStore
     (utf16 "\x7b\"response\":\"ولا يهمك يابا\",\"command\":null,\"terminate\":true\x7d")
     [(utf16 "response", .string (utf16 "ولا يهمك يابا")), (utf16 "command", .null),
      (utf16 "terminate", .bool true)]
     (utf16 "ولا يهمك يابا") none (some true) rfl rfl rfl (by decide) (Or.inr rfl) rfl,
   well_typed_object_is_returned (specStore 50) (constModel (utf16 "\x7b\"response\":\"on it\",\"command\":\"!img horse\",\"terminate\":false\x7d")) []
    (utf16 "hi") (utf16 "u1") emptyStore
     (utf16 "\x7b\"response\":\"on it\",\"command\":\"!img horse\",\"terminate\":false\x7d")
     [(utf16 "response", .string (utf16 "on it")), (utf16 "command", .string (utf16 "!img horse")),
      (utf16 "terminate", .bool false)]
     (utf16 "on it") (some (utf16 "!img horse")) (some false) rfl rfl rfl (by decide)
     ⟨rfl, by decide⟩ rfl⟩

/-- C5, evaluation at the failing inputs: on the backend text `{}` the call
resolves to the response "خليك كده متكلمنيش 🙄" but appends `undefined` as the
text of the model turn; on the backend text `null` it appends the user turn
only and resolves to the degraded reply. -/
theorem history_records_undecoded_response :
    (generateAIResponse (specStore 50) (constModel (utf16 "\x7b\x7d")) []
        (utf16 "hi") (utf16 "u1") emptyStore).1 =
      .ok ⟨.string (utf16 "خليك كده متكلمنيش 🙄"), .null, .bool false⟩ ∧
    (generateAIResponse (specStore 50) (constModel (utf16 "\x7b\x7d")) []
        (utf16 "hi") (utf16 "u1") emptyStore).2 (utf16 "u1") =
      [⟨utf16 "user", .string (utf16 "hi")⟩, ⟨utf16 "model", .undefined⟩] ∧
    (generateAIResponse (specStore 50) (constModel (utf16 "null")) []
        (utf16 "hi") (utf16 "u1") emptyStore).1 =
      .ok ⟨.string (utf16 "مش ناقصه صداع بقا"), .string (utf16 "!toggleai"), .bool true⟩ ∧
    (generateAIResponse (specStore 50) (constModel (utf16 "null")) []
        (utf16 "hi") (utf16 "u1") emptyStore).2 (utf16 "u1") =
      [⟨utf16 "user", .string (utf16 "hi")⟩] :=
  ⟨rfl, rfl, rfl, rfl⟩

/-- C6, counterexample: on the backend text `not json at all`, from the empty
store, the history of the user is still empty after the call: it has not
gained the user turn and the fallback turn. -/
theorem degraded_call_records_nothing :
    (generateAIResponse (specStore 50) (constModel (utf16 "not json at all")) []
        (utf16 "hi") (utf16 "u1") emptyStore).2 (utf16 "u1") = [] ∧
    (generateAIResponse (specStore 50) (constModel (utf16 "not json at all")) []
        (utf16 "hi") (utf16 "u1") emptyStore).2 (utf16 "u1") ≠
      [⟨utf16 "user", .string (utf16 "hi")⟩,
       ⟨utf16 "model", .string (utf16 "مش ناقصه صداع بقا")⟩] :=
  ⟨rfl, fun h => List.noConfusion h⟩

/-- C6, amended: when the call ends in the degraded reply because of a
transport failure or because the backend text is not valid JSON, the history
state is left as it was: no turn is appended, for any identity. -/
theorem degraded_call_leaves_history {σ : Type} (mgr : ChatHistoryManager σ)
    (model : GenerativeModel) (SYSTEM_PROMPT userMessage userId : JSString) (s : σ)
    (h : (∃ e, requestText mgr model SYSTEM_PROMPT userMessage userId s = .error e) ∨
      (∃ raw e, requestText mgr model SYSTEM_PROMPT userMessage userId s = .ok raw ∧
        JSON.parse (trim raw) = .error e)) :
    generateAIResponse mgr model SYSTEM_PROMPT userMessage userId s =
      (.ok ⟨.string (utf16 "مش ناقصه صداع بقا"), .string (utf16 "!toggleai"), .bool true⟩, s) := by
  rcases h with ⟨e, h⟩ | ⟨raw, e, h, hp⟩
  · exact generateAIResponse_of_requestError mgr model SYSTEM_PROMPT userMessage userId s e h
  · exact generateAIResponse_of_parseError mgr model SYSTEM_PROMPT userMessage userId s raw e h hp

/-- C6, witness: after the malformed text `not json at all` and after a failed
completion request the store is still the empty store. -/
theorem degraded_call_leaves_history_witness :
    generateAIResponse (specStore 50) (constModel (utf16 "not json at all")) []
        (utf16 "hi") (utf16 "u1") emptyStore =
      (.ok ⟨.string (utf16 "مش ناقصه صداع بقا"), .string (utf16 "!toggleai"), .bool true⟩,
        emptyStore) ∧
    generateAIResponse (specStore 50) failingModel [] (utf16 "hi") (utf16 "u1") emptyStore =
      (.ok ⟨.string (utf16 "مش ناقصه صداع بقا"), .string (utf16 "!toggleai"), .bool true⟩,
        emptyStore) :=
  ⟨degraded_call_leaves_history (specStore 50) (constModel (utf16 "not json at all")) []
    (utf16 "hi") (utf16 "u1") emptyStore
     (Or.inr ⟨utf16 "not json at all", .syntaxError, rfl, rfl⟩),
   degraded_call_leaves_history (specStore 50) failingModel [] (utf16 "hi") (utf16 "u1")
     emptyStore (Or.inl ⟨.external 503, rfl⟩)⟩

/-- C7, counterexample: on the backend text `{}` the call resolves to the
response "خليك كده متكلمنيش 🙄" with command null and terminate false, which is
not the degraded reply. -/
theorem missing_response_is_not_degraded :
    (generateAIResponse (specStore 50) (constModel (utf16 "\x7b\x7d")) []
        (utf16 "hi") (utf16 "u1") emptyStore).1 =
      .ok ⟨.string (utf16 "خليك كده متكلمنيش 🙄"), .null, .bool false⟩ ∧
    (generateAIResponse (specStore 50) (constModel (utf16 "\x7b\x7d")) []
        (utf16 "hi") (utf16 "u1") emptyStore).1 ≠
      .ok ⟨.string (utf16 "مش ناقصه صداع بقا"), .string (utf16 "!toggleai"), .bool true⟩ :=
  ⟨rfl, fun h => JSValue.noConfusion (Reply.mk.inj (Except.ok.inj h)).2.1⟩

/-- C7, amended: when the backend output decodes to a JSON object without a
`response` member, `generateAIResponse` resolves to the response
"خليك كده متكلمنيش 🙄", with the decoded `command` if it is truthy and null
otherwise, and with `terminate` the boolean coercion of the decoded
`terminate`. -/
theorem missing_response_gets_fallback_phrase {σ : Type} (mgr : ChatHistoryManager σ)
    (model : GenerativeModel) (SYSTEM_PROMPT userMessage userId : JSString) (s : σ)
    (raw : JSString) (members : List (JSString × JSValue))
    (hraw : requestText mgr model SYSTEM_PROMPT userMessage userId s = .ok raw)
    (hparse : JSON.parse (trim raw) = .ok (.object members))
    (hr : lookupMember (utf16 "response") members = .undefined) :
    (generateAIResponse mgr model SYSTEM_PROMPT userMessage userId s).1 =
      .ok ⟨.string (utf16 "خليك كده متكلمنيش 🙄"),
           if toBoolean (lookupMember (utf16 "command") members) = true
           then lookupMember (utf16 "command") members else .null,
           .bool (toBoolean (lookupMember (utf16 "terminate") members))⟩ := by
  rw [generateAIResponse_of_object mgr model SYSTEM_PROMPT userMessage userId s raw members
    hraw hparse, hr]
  rfl

/-- C7, witness: `{"command":"!img cat"}` resolves to the fallback phrase with
the command "!img cat" and terminate false. -/
theorem missing_response_gets_fallback_phrase_witness :
    (generateAIResponse (specStore 50) (constModel (utf16 "\x7b\"command\":\"!img cat\"\x7d")) []
        (utf16 "hi") (utf16 "u1") emptyStore).1 =
      .ok ⟨.string (utf16 "خليك كده متكلمنيش 🙄"), .string (utf16 "!img cat"), .bool false⟩ :=
  missing_response_gets_fallback_phrase (specStore 50) (constModel (utf16 "\x7b\"command\":\"!img cat\"\x7d")) []
    (utf16 "hi") (utf16 "u1") emptyStore
    (utf16 "\x7b\"command\":\"!img cat\"\x7d")
    [(utf16 "command", .string (utf16 "!img cat"))] rfl rfl rfl

/-- C8, counterexample: on the backend text `42`, valid JSON that is not an
object, the call resolves to the response "خليك كده متكلمنيش 🙄" with command
null and terminate false, which is not the degraded reply. -/
theorem non_object_is_not_degraded :
    JSON.parse (trim (utf16 "42")) = .ok (.number ⟨false, 42, 0⟩) ∧
    (generateAIResponse (specStore 50) (constModel (utf16 "42")) []
        (utf16 "hi") (utf16 "u1") emptyStore).1 =
      .ok ⟨.string (utf16 "خليك كده متكلمنيش 🙄"), .null, .bool false⟩ ∧
    (generateAIResponse (specStore 50) (constModel (utf16 "42")) []
        (utf16 "hi") (utf16 "u1") emptyStore).1 ≠
      .ok ⟨.string (utf16 "مش ناقصه صداع بقا"), .string (utf16 "!toggleai"), .bool true⟩ :=
  ⟨rfl, rfl, fun h => JSValue.noConfusion (Reply.mk.inj (Except.ok.inj h)).2.1⟩

/-- C8, amended: when the backend text is valid JSON but not an object,
`generateAIResponse` does not raise: for `null` it resolves to the degraded
reply (command "!toggleai", terminate true); for a number, a string, a boolean
or an array it resolves to the response "خليك كده متكلمنيش 🙄" with command
null and terminate false. -/
theorem non_object_reply {σ : Type} (mgr : ChatHistoryManager σ)
    (model : GenerativeModel) (SYSTEM_PROMPT userMessage userId : JSString) (s : σ)
    (raw : JSString) (v : JSValue)
    (hraw : requestText mgr model SYSTEM_PROMPT userMessage userId s = .ok raw)
    (hparse : JSON.parse (trim raw) = .ok v)
    (hv : v = .null ∨ (∃ n, v = .number n) ∨ (∃ x, v = .string x) ∨ (∃ b, v = .bool b) ∨
      (∃ xs, v = .array xs)) :
    (generateAIResponse mgr model SYSTEM_PROMPT userMessage userId s).1 =
      .ok (match v with
        | .null =>
          ⟨.string (utf16 "مش ناقصه صداع بقا"), .string (utf16 "!toggleai"), .bool true⟩
        | _ => ⟨.string (utf16 "خليك كده متكلمنيش 🙄"), .null, .bool false⟩) := by
  rcases hv with hv | ⟨n, hv⟩ | ⟨x, hv⟩ | ⟨b, hv⟩ | ⟨xs, hv⟩ <;> subst hv
  · rw [generateAIResponse_of_getProp_error mgr model SYSTEM_PROMPT userMessage userId s raw
      .null .typeError hraw hparse rfl]
  all_goals
    rw [generateAIResponse_of_decoded mgr model SYSTEM_PROMPT userMessage userId s raw
      _ .undefined .undefined .undefined hraw hparse rfl rfl rfl]
    rfl

/-- C8, witness: the array `[1, 2]` resolves to the fallback phrase with command
null and terminate false; `null` resolves to the degraded reply. -/
theorem non_object_reply_witness :
    (generateAIResponse (specStore 50) (constModel (utf16 "[1, 2]")) []
        (utf16 "hi") (utf16 "u1") emptyStore).1 =
      .ok ⟨.string (utf16 "خليك كده متكلمنيش 🙄"), .null, .bool false⟩ ∧
    (generateAIResponse (specStore 50) (constModel (utf16 "null")) []
        (utf16 "hi") (utf16 "u1") emptyStore).1 =
      .ok ⟨.string (utf16 "مش ناقصه صداع بقا"), .string (utf16 "!toggleai"), .bool true⟩ :=
  ⟨non_object_reply (specStore 50) (constModel (utf16 "[1, 2]")) []
    (utf16 "hi") (utf16 "u1") emptyStore
     (utf16 "[1, 2]") (.array [.number ⟨false, 1, 0⟩, .number ⟨false, 2, 0⟩])
     rfl rfl (Or.inr (Or.inr (Or.inr (Or.inr ⟨_, rfl⟩)))),
   non_object_reply (specStore 50) (constModel (utf16 "null")) []
    (utf16 "hi") (utf16 "u1") emptyStore
     (utf16 "null") .null rfl rfl (Or.inl rfl)⟩

/-- C9, counterexample: on `{"response":"ok","command":7}` the returned
command is the number 7, not null; on `{"response":"ok","command":""}` the
decoded command is the empty string and the returned command is null. -/
theorem command_follows_truthiness :
    (generateAIResponse (specStore 50) (constModel (utf16 "\x7b\"response\":\"ok\",\"command\":7\x7d")) []
        (utf16 "hi") (utf16 "u1") emptyStore).1 =
      .ok ⟨.string (utf16 "ok"), .number ⟨false, 7, 0⟩, .bool false⟩ ∧
    JSValue.number ⟨false, 7, 0⟩ ≠ .null ∧
    JSON.parse (trim (utf16 "\x7b\"response\":\"ok\",\"command\":\"\"\x7d")) =
      .ok (.object [(utf16 "response", .string (utf16 "ok")), (utf16 "command", .string [])]) ∧
    (generateAIResponse (specStore 50) (constModel (utf16 "\x7b\"response\":\"ok\",\"command\":\"\"\x7d")) []
        (utf16 "hi") (utf16 "u1") emptyStore).1 =
      .ok ⟨.string (utf16 "ok"), .null, .bool false⟩ ∧
    JSValue.null ≠ .string [] :=
  ⟨rfl, fun h => JSValue.noConfusion h, rfl, rfl, fun h => JSValue.noConfusion h⟩

/-- C9, amended: when the backend output decodes to a JSON object, the
returned `command` is the decoded `command` value, unchanged, if that value is
truthy (any non-empty string, inside or outside the command vocabulary, but
also a non-zero number, true, an array or an object), and is null in every
other case (absent, null, false, zero, the empty string). -/
theorem command_is_decoded_or_null {σ : Type} (mgr : ChatHistoryManager σ)
    (model : GenerativeModel) (SYSTEM_PROMPT userMessage userId : JSString) (s : σ)
    (raw : JSString) (members : List (JSString × JSValue))
    (hraw : requestText mgr model SYSTEM_PROMPT userMessage userId s = .ok raw)
    (hparse : JSON.parse (trim raw) = .ok (.object members)) :
    ∃ reply, (generateAIResponse mgr model SYSTEM_PROMPT userMessage userId s).1 = .ok reply ∧
      (toBoolean (lookupMember (utf16 "command") members) = true →
        reply.command = lookupMember (utf16 "command") members) ∧
      (toBoolean (lookupMember (utf16 "command") members) = false → reply.command = .null) ∧
      (∀ c, c ≠ [] → lookupMember (utf16 "command") members = .string c →
        reply.command = .string c) := by
  rw [generateAIResponse_of_object mgr model SYSTEM_PROMPT userMessage userId s raw members
    hraw hparse]
  refine ⟨_, rfl, ?_, ?_, ?_⟩
  · intro h
    show jsOr _ _ = _
    simp [jsOr, h]
  · intro h
    show jsOr _ _ = _
    simp [jsOr, h]
  · intro c hc h
    show jsOr _ _ = _
    rw [h]
    cases c with
    | nil => exact absurd rfl hc
    | cons a as => rfl

/-- C9, witness: the command "!dance now", outside the vocabulary, is returned
unchanged. -/
theorem command_is_decoded_or_null_witness :
    ∃ reply,
      (generateAIResponse (specStore 50) (constModel (utf16 "\x7b\"response\":\"ok\",\"command\":\"!dance now\"\x7d")) []
        (utf16 "hi") (utf16 "u1") emptyStore).1 = .ok reply ∧
      reply.command = .string (utf16 "!dance now") := by
  obtain ⟨reply, h, _, _, h3⟩ := command_is_decoded_or_null (specStore 50) (constModel (utf16 "\x7b\"response\":\"ok\",\"command\":\"!dance now\"\x7d")) []
    (utf16 "hi") (utf16 "u1") emptyStore
    (utf16 "\x7b\"response\":\"ok\",\"command\":\"!dance now\"\x7d")
    [(utf16 "response", .string (utf16 "ok")), (utf16 "command", .string (utf16 "!dance now"))]
    rfl rfl
  exact ⟨reply, h, h3 (utf16 "!dance now") (by decide) rfl⟩

/-- C10, counterexample: on `{"response":"ok","terminate":"yes"}` the decoded
`terminate` is the string "yes", not a boolean, and the returned `terminate`
is true, not false. -/
theorem terminate_string_is_true :
    JSON.parse (trim (utf16 "\x7b\"response\":\"ok\",\"terminate\":\"yes\"\x7d")) =
      .ok (.object [(utf16 "response", .string (utf16 "ok")),
        (utf16 "terminate", .string (utf16 "yes"))]) ∧
    (generateAIResponse (specStore 50) (constModel (utf16 "\x7b\"response\":\"ok\",\"terminate\":\"yes\"\x7d")) []
        (utf16 "hi") (utf16 "u1") emptyStore).1 =
      .ok ⟨.string (utf16 "ok"), .null, .bool true⟩ ∧
    JSValue.bool true ≠ .bool false :=
  ⟨rfl, rfl, fun h => Bool.noConfusion (JSValue.bool.inj h)⟩

/-- C10, amended: when the backend output decodes to a JSON object, the
returned `terminate` is the boolean coercion of the decoded `terminate` value:
the value itself when it is a boolean, false when it is absent, and true or
false by truthiness for every other value. -/
theorem terminate_is_coerced {σ : Type} (mgr : ChatHistoryManager σ)
    (model : GenerativeModel) (SYSTEM_PROMPT userMessage userId : JSString) (s : σ)
    (raw : JSString) (members : List (JSString × JSValue))
    (hraw : requestText mgr model SYSTEM_PROMPT userMessage userId s = .ok raw)
    (hparse : JSON.parse (trim raw) = .ok (.object members)) :
    ∃ reply, (generateAIResponse mgr model SYSTEM_PROMPT userMessage userId s).1 = .ok reply ∧
      reply.terminate = .bool (toBoolean (lookupMember (utf16 "terminate") members)) ∧
      (∀ b, lookupMember (utf16 "terminate") members = .bool b → reply.terminate = .bool b) ∧
      (lookupMember (utf16 "terminate") members = .undefined → reply.terminate = .bool false) := by
  rw [generateAIResponse_of_object mgr model SYSTEM_PROMPT userMessage userId s raw members
    hraw hparse]
  refine ⟨_, rfl, rfl, ?_, ?_⟩
  · intro b h
    show jsBoolean _ = _
    rw [h]; rfl
  · intro h
    show jsBoolean _ = _
    rw [h]; rfl

/-- C10, witness: the decoded `terminate` 1 is returned as true. -/
theorem terminate_is_coerced_witness :
    ∃ reply,
      (generateAIResponse (specStore 50) (constModel (utf16 "\x7b\"response\":\"ok\",\"terminate\":1\x7d")) []
        (utf16 "hi") (utf16 "u1") emptyStore).1 = .ok reply ∧
      reply.terminate = .bool true := by
  obtain ⟨reply, h, h1, _, _⟩ := terminate_is_coerced (specStore 50) (constModel (utf16 "\x7b\"response\":\"ok\",\"terminate\":1\x7d")) []
    (utf16 "hi") (utf16 "u1") emptyStore
    (utf16 "\x7b\"response\":\"ok\",\"terminate\":1\x7d")
    [(utf16 "response", .string (utf16 "ok")), (utf16 "terminate", .number ⟨false, 1, 0⟩)]
    rfl rfl
  exact ⟨reply, h, h1⟩

end MoeAppQr
